import Mathlib

/-!
Shallow embedding of the Wolof-Bridge request pipeline
(src/main.py, src/services/translator.py, src/services/data_model.py).

Python values flowing through the pipeline (parsed JSON bodies, request
fields, translation results) are modelled by the inductive type `Json`;
Python exceptions by the inductive type `Err`.  Remote HTTP behaviour is a
parameter: the translation endpoint is a function from the POSTed
parameters to a `NetResult`, the model endpoint a function from the prompt
to an `Except String Json`.
-/

namespace WolofBridge

/-- Python / JSON values as they appear in the pipeline: strings, integers,
booleans, None/null, lists and (string-keyed) dicts.  JSON numbers are
modelled as integers; no claim depends on fractional values. -/
inductive Json where
  | str (s : String)
  | num (n : Int)
  | bool (b : Bool)
  | null
  | arr (elems : List Json)
  | obj (fields : List (String × Json))
deriving Repr

mutual

/-- Structural equality on `Json` (Python `==` restricted to the shapes the
pipeline compares). -/
def jsonBeq : Json → Json → Bool
  | .str a, .str b => a == b
  | .num a, .num b => a == b
  | .bool a, .bool b => a == b
  | .null, .null => true
  | .arr a, .arr b => jsonListBeq a b
  | .obj a, .obj b => jsonFieldsBeq a b
  | _, _ => false

/-- Pointwise `jsonBeq` on lists of values. -/
def jsonListBeq : List Json → List Json → Bool
  | [], [] => true
  | a :: as, b :: bs => jsonBeq a b && jsonListBeq as bs
  | _, _ => false

/-- Pointwise `jsonBeq` on association lists of fields. -/
def jsonFieldsBeq : List (String × Json) → List (String × Json) → Bool
  | [], [] => true
  | (k, v) :: as, (l, w) :: bs => k == l && jsonBeq v w && jsonFieldsBeq as bs
  | _, _ => false

end

instance : BEq Json := ⟨jsonBeq⟩

/-- Python exception kinds raised by the embedded code.  `valueError` is the
caller-contract kind (`ValueError`), `translationError` the service's own
`TranslationError`; the remaining constructors are the builtin Python
exceptions the code can raise (`KeyError`, `TypeError`, `AttributeError`,
`IndexError`, `json.JSONDecodeError`, plain `Exception`, and the two
`requests` transport exceptions). -/
inductive Err where
  | valueError (msg : String)
  | translationError (msg : String)
  | keyError (key : String)
  | typeError (msg : String)
  | attributeError (msg : String)
  | indexError (msg : String)
  | jsonDecodeError (msg : String)
  | genericError (msg : String)
  | timeoutErr
  | requestError (msg : String)
deriving Repr, DecidableEq

/-- Python truthiness (`bool(x)`) for the modelled values. -/
def truthy : Json → Bool
  | .str s => s != ""
  | .num n => n != 0
  | .bool b => b
  | .null => false
  | .arr l => !l.isEmpty
  | .obj l => !l.isEmpty

/-- `isinstance(x, str)` for the modelled values. -/
def Json.isStr : Json → Bool
  | .str _ => true
  | _ => false

/-- Python type name of a value, as used in builtin error messages. -/
def typeName : Json → String
  | .str _ => "str"
  | .num _ => "int"
  | .bool _ => "bool"
  | .null => "NoneType"
  | .arr _ => "list"
  | .obj _ => "dict"

/-- Is the list `pre` a prefix of `l` (character lists)? -/
def listIsPre : List Char → List Char → Bool
  | [], _ => true
  | _ :: _, [] => false
  | a :: as, b :: bs => a == b && listIsPre as bs

/-- Does `needle` occur inside `hay` (as a character list)? -/
def listHasSub (needle : List Char) : List Char → Bool
  | [] => needle.isEmpty
  | c :: cs => listIsPre needle (c :: cs) || listHasSub needle cs

/-- Python substring membership `needle in hay` for strings. -/
def strContains (hay needle : String) : Bool :=
  listHasSub needle.data hay.data

/-- Python membership `k in j` for a string key `k`: key membership on a
dict, element membership on a list, substring membership on a string, and a
`TypeError` on the non-iterable values. -/
def pyIn (j : Json) (k : String) : Except Err Bool :=
  match j with
  | .obj fields => .ok (fields.any fun p => p.1 == k)
  | .arr l => .ok (l.any fun x => x == Json.str k)
  | .str s => .ok (strContains s k)
  | other => .error (.typeError ("argument of type '" ++ typeName other ++ "' is not iterable"))

/-- Python subscription `j[k]` for a string key `k`: dict lookup (raising
`KeyError` when absent) and a `TypeError` on every other value. -/
def pyIndex (j : Json) (k : String) : Except Err Json :=
  match j with
  | .obj fields =>
    match List.lookup k fields with
    | some v => .ok v
    | none => .error (.keyError k)
  | .str _ => .error (.typeError "string indices must be integers")
  | .arr _ => .error (.typeError "list indices must be integers or slices, not str")
  | other => .error (.typeError ("'" ++ typeName other ++ "' object is not subscriptable"))

/-- Python subscription `j[0]`: first element of a list (raising
`IndexError` when empty), first character of a string, `KeyError` on a
dict without the key `0`, `TypeError` on the unsubscriptable values. -/
def pyIdx0 (j : Json) : Except Err Json :=
  match j with
  | .arr (x :: _) => .ok x
  | .arr [] => .error (.indexError "list index out of range")
  | .str s =>
    match s.data with
    | c :: _ => .ok (.str (String.mk [c]))
    | [] => .error (.indexError "string index out of range")
  | .obj _ => .error (.keyError "0")
  | other => .error (.typeError ("'" ++ typeName other ++ "' object is not subscriptable"))

/-- Python `j.get(k, d)`: dict lookup with a default, `AttributeError` on
every non-dict value. -/
def pyGetD (j : Json) (k : String) (d : Json) : Except Err Json :=
  match j with
  | .obj fields => .ok ((List.lookup k fields).getD d)
  | other => .error (.attributeError ("'" ++ typeName other ++ "' object has no attribute 'get'"))

mutual

/-- Python `repr` of a value, as used when formatting containers into
messages (string escaping inside reprs is not modelled). -/
def pyRepr : Json → String
  | .str s => "'" ++ s ++ "'"
  | .num n => toString n
  | .bool true => "True"
  | .bool false => "False"
  | .null => "None"
  | .arr l => "[" ++ pyReprList l ++ "]"
  | .obj l => "\x7b" ++ pyReprFields l ++ "\x7d"

/-- Comma-separated reprs of list elements. -/
def pyReprList : List Json → String
  | [] => ""
  | [x] => pyRepr x
  | x :: xs => pyRepr x ++ ", " ++ pyReprList xs

/-- Comma-separated reprs of dict fields. -/
def pyReprFields : List (String × Json) → String
  | [] => ""
  | [(k, v)] => "'" ++ k ++ "': " ++ pyRepr v
  | (k, v) :: xs => "'" ++ k ++ "': " ++ pyRepr v ++ ", " ++ pyReprFields xs

end

/-- Python `str` of a value, as used by f-string interpolation. -/
def pyToStr : Json → String
  | .str s => s
  | other => pyRepr other

/-- Message carried by an exception, as Python `str(e)` renders it
(`KeyError` renders the repr of the missing key; `str` of a bare
`requests.exceptions.Timeout()` is empty). -/
def errMsg : Err → String
  | .valueError m => m
  | .translationError m => m
  | .keyError k => "'" ++ k ++ "'"
  | .typeError m => m
  | .attributeError m => m
  | .indexError m => m
  | .jsonDecodeError m => m
  | .genericError m => m
  | .timeoutErr => ""
  | .requestError m => m

/-- String payload of a `Json.str`, used only under an `isStr` guard. -/
def asString : Json → String
  | .str s => s
  | _ => ""

/-- Drop leading whitespace characters from a character list. -/
def dropLeadingWs : List Char → List Char
  | [] => []
  | c :: cs => if c.isWhitespace then dropLeadingWs cs else c :: cs

/-- Python `str.strip()`: remove leading and trailing whitespace. -/
def pyStrip (s : String) : String :=
  String.mk (dropLeadingWs (dropLeadingWs s.data).reverse).reverse

/-! ## Translation service (src/services/translator.py) -/

/-- Supported language table of the TranslationService
(`self.supported_languages` in its constructor). -/
def supported_languages : List (String × String) := [("wo", "Wolof"), ("en", "English")]

/-- Mutable state of a TranslationService instance: the configured API key
and the per-process request counter used for log correlation. -/
structure ServiceState where
  api_key : String
  request_id : Nat
deriving Repr, DecidableEq

/-- POST parameters sent to the remote translation endpoint. -/
structure TransParams where
  q : String
  source : String
  target : String
  key : String
deriving Repr, DecidableEq

/-- Outcome of the remote POST: an HTTP response whose body either parses
to JSON or fails with a decode message, a timeout, or another transport
error. -/
inductive NetResult where
  | resp (status : Nat) (body : Except String Json)
  | timeout
  | reqError (msg : String)

/-- TranslationService.get_request_id: increments the per-process counter
and returns the correlation identifier `timestamp-counter` together with
the new counter value. -/
def get_request_id (request_id : Nat) (timestamp : String) : String × Nat :=
  (timestamp ++ "-" ++ toString (request_id + 1), request_id + 1)

/-- TranslationService.validate_language_codes: raises TranslationError
when either code is outside the supported table. -/
def validate_language_codes (source_lang target_lang : String) : Except Err Unit :=
  if (List.lookup source_lang supported_languages).isNone then
    .error (.translationError ("Unsupported source language: " ++ source_lang))
  else if (List.lookup target_lang supported_languages).isNone then
    .error (.translationError ("Unsupported target language: " ++ target_lang))
  else .ok ()

/-- TranslationService.validate_translation_response: checks the parsed
body is a dict with `data`, with `translations` under it, that the
translations value is a non-empty list, and that its first element carries
`translatedText`; each failed check raises TranslationError, and the
membership / subscription steps themselves can raise builtin errors on
ill-typed payloads, exactly as the Python operators do. -/
def validate_translation_response (response_data : Json) : Except Err Unit :=
  match response_data with
  | .obj fields =>
    match List.lookup "data" fields with
    | none => .error (.translationError "Missing 'data' in translation response")
    | some dataVal =>
      match pyIn dataVal "translations" with
      | .error e => .error e
      | .ok false => .error (.translationError "Missing 'translations' in translation response")
      | .ok true =>
        match pyIndex dataVal "translations" with
        | .error e => .error e
        | .ok translations =>
          match translations with
          | .arr (first :: _) =>
            match pyIn first "translatedText" with
            | .error e => .error e
            | .ok false => .error (.translationError "Missing translated text in response")
            | .ok true => .ok ()
          | _ => .error (.translationError "Invalid translations format in response")
  | _ => .error (.translationError "Invalid response type from translation service")

/-- Subscription chain `result['data']['translations'][0]['translatedText']`
performed by translate after response validation. -/
def extract_translation (result : Json) : Except Err Json :=
  match pyIndex result "data" with
  | .error e => .error e
  | .ok d =>
    match pyIndex d "translations" with
    | .error e => .error e
    | .ok translations =>
      match pyIdx0 translations with
      | .error e => .error e
      | .ok first => pyIndex first "translatedText"

/-- Status-400 branch of translate: reads `error.message` from the parsed
body with dict-get defaults and raises TranslationError; a body that fails
to parse raises the JSON decode error instead. -/
def handle400 (body : Except String Json) : Except Err Json :=
  match body with
  | .error m => .error (.jsonDecodeError m)
  | .ok j =>
    match pyGetD j "error" (.obj []) with
    | .error e => .error e
    | .ok error_data =>
      match pyGetD error_data "message" (.str "Invalid request") with
      | .error e => .error e
      | .ok error_message =>
        .error (.translationError ("Translation request invalid: " ++ pyToStr error_message))

/-- Status-200 branch of translate: parse the body (a parse failure raises
TranslationError "Invalid response format..."), validate its shape, extract
the translated text, and reject a falsy translation. -/
def handle200 (body : Except String Json) : Except Err Json :=
  match body with
  | .error _ => .error (.translationError "Invalid response format from translation service")
  | .ok result =>
    match validate_translation_response result with
    | .error e => .error e
    | .ok _ =>
      match extract_translation result with
      | .error e => .error e
      | .ok translation =>
        if truthy translation then .ok translation
        else .error (.translationError "Empty translation received")

/-- Status dispatch of translate on the outcome of the remote POST. -/
def dispatch_response : NetResult → Except Err Json
  | .timeout => .error .timeoutErr
  | .reqError m => .error (.requestError m)
  | .resp status body =>
    if status == 400 then handle400 body
    else if status == 403 then
      .error (.translationError "Authentication failed. Please check your API key.")
    else if status != 200 then
      .error (.translationError ("Translation service error: HTTP " ++ toString status))
    else handle200 body

/-- Re-wrapping performed by the `except` clauses at the end of translate:
a timeout and a transport error get their fixed messages, and every other
exception raised inside the `try` block — the TranslationError raises
included — is caught by the generic handler and re-raised as
TranslationError with the "Translation failed: " prefix. -/
def wrapOuter : Except Err Json → Except Err Json
  | .ok v => .ok v
  | .error .timeoutErr => .error (.translationError "Translation service timeout. Please try again.")
  | .error (.requestError m) => .error (.translationError ("Translation service error: " ++ m))
  | .error e => .error (.translationError ("Translation failed: " ++ errMsg e))

/-- Result of one translate call: the Python outcome, the service state
after the call, and the network calls performed (in order). -/
structure TransResult where
  result : Except Err Json
  finalState : ServiceState
  calls : List TransParams
deriving Repr

/-- TranslationService.translate, with the remote POST abstracted as `net`
and the log timestamp as `ts`.  Control flow mirrors the source: the
non-empty / string check raises ValueError before anything else; the
request counter is then bumped by get_request_id; the log line built next
subscripts the supported-language table with both codes, so an unsupported
code raises a bare KeyError before the `try` block is entered; inside the
`try`, validate_language_codes runs, the text is trimmed (Python
`str.strip`), one POST is issued, and the response is dispatched on its
status; every exception raised inside the `try` is re-wrapped by
`wrapOuter`. -/
def translate (svc : ServiceState) (ts : String) (net : TransParams → NetResult)
    (text : Json) (source_lang target_lang : String) : TransResult :=
  if truthy text && text.isStr then
    let svc1 : ServiceState := { svc with request_id := (get_request_id svc.request_id ts).2 }
    match List.lookup source_lang supported_languages,
          List.lookup target_lang supported_languages with
    | none, _ => { result := .error (.keyError source_lang), finalState := svc1, calls := [] }
    | some _, none => { result := .error (.keyError target_lang), finalState := svc1, calls := [] }
    | some _, some _ =>
      let body : Except Err Json × List TransParams :=
        match validate_language_codes source_lang target_lang with
        | .error e => (.error e, [])
        | .ok _ =>
          let cleaned := pyStrip (asString text)
          let params : TransParams :=
            { q := cleaned, source := source_lang, target := target_lang, key := svc.api_key }
          (dispatch_response (net params), [params])
      { result := wrapOuter body.1, finalState := svc1, calls := body.2 }
  else
    { result := .error (.valueError "Text must be a non-empty string"),
      finalState := svc, calls := [] }

/-! ## Data-model service (src/services/data_model.py) -/

namespace DataModel

/-- DataModelService.query_model, with the remote chat-completion call
abstracted as `remote` (prompt text to either the first completion's
message content or a failure message).  On success the content is returned
unchanged; any exception from the client is caught and replaced by the
fixed generic failure. -/
def query_model (remote : String → Except String Json) (prompt : String) : Except Err Json :=
  match remote prompt with
  | .ok content => .ok content
  | .error _ => .error (.genericError "Failed to query the model.")

/-- DataModelService.process_query: rejects a falsy or non-string query
with ValueError, trims the query, delegates to query_model, and re-raises
any failure as a plain Exception whose message prefixes the underlying
message with "Query processing failed: ". -/
def process_query (remote : String → Except String Json) (query : Json) : Except Err Json :=
  if truthy query && query.isStr then
    let cleaned_query := pyStrip (asString query)
    match query_model remote cleaned_query with
    | .ok response => .ok response
    | .error e => .error (.genericError ("Query processing failed: " ++ errMsg e))
  else
    .error (.valueError "Query must be a non-empty string")

end DataModel

/-! ## Request handler (src/main.py) -/

/-- One service call made by the handler, recorded in order. -/
inductive Event where
  | translateCall (text : Json) (source target : String)
  | modelCall (query : Json)
deriving Repr

/-- The two injected service clients the handler sequences (spec section 9
reframes the process-scope service instances this way; the stubbed and the
real instantiations below both fit). -/
structure Clients where
  translate : Json → String → String → Except Err Json
  processQuery : Json → Except Err Json

namespace Main

/-- Flask route handler process_query (src/main.py lines 24-62): reads
`query` from the request body with `data.get('query', '')`, returns 400
when it is falsy, then runs translate (wo to en), the data-model query and
translate (en to wo) in order; any exception is caught and returned as a
500 response carrying `str(e)`.  The second component is the trace of
service calls made, in order. -/
def process_query (c : Clients) (data : Json) : (Nat × Json) × List Event :=
  match pyGetD data "query" (.str "") with
  | .error e => ((500, .obj [("error", .str (errMsg e))]), [])
  | .ok wolof_query =>
    if truthy wolof_query then
      match c.translate wolof_query "wo" "en" with
      | .error e =>
        ((500, .obj [("error", .str (errMsg e))]),
         [.translateCall wolof_query "wo" "en"])
      | .ok french_query =>
        match c.processQuery french_query with
        | .error e =>
          ((500, .obj [("error", .str (errMsg e))]),
           [.translateCall wolof_query "wo" "en", .modelCall french_query])
        | .ok french_response =>
          match c.translate french_response "en" "wo" with
          | .error e =>
            ((500, .obj [("error", .str (errMsg e))]),
             [.translateCall wolof_query "wo" "en", .modelCall french_query,
              .translateCall french_response "en" "wo"])
          | .ok wolof_response =>
            ((200, .obj [("original_query", wolof_query), ("french_query", french_query),
                         ("french_response", french_response), ("wolof_response", wolof_response)]),
             [.translateCall wolof_query "wo" "en", .modelCall french_query,
              .translateCall french_response "en" "wo"])
    else ((400, .obj [("error", .str "No query provided")]), [])

end Main

/-- Clients built from the two embedded services, as main.py wires them
(the translation request counter is not threaded between the two translate
calls of one request; the counter-independence theorem below shows the
counter value cannot influence any result). -/
def realClients (svc : ServiceState) (ts : String) (net : TransParams → NetResult)
    (remote : String → Except String Json) : Clients :=
  { translate := fun text source target => (translate svc ts net text source target).result,
    processQuery := fun q => DataModel.process_query remote q }

/-! ## Auxiliary definitions used by the statements -/

/-- CallerContractViolation kind of spec section 7: the ValueError-style
failures raised for empty or invalid input. -/
def isCallerViolation : Err → Bool
  | .valueError _ => true
  | _ => false

/-- ExternalServiceFailure kind of spec section 7: the TranslationError
raised for remote-service failures. -/
def isExternalFailure : Err → Bool
  | .translationError _ => true
  | _ => false

/-- Does a parsed 200-response body have the shape the service requires: a
dict whose `data` is a dict whose `translations` is a non-empty list whose
first element is a dict carrying `translatedText`? -/
def hasProperShape : Json → Bool
  | .obj fields =>
    match List.lookup "data" fields with
    | some (.obj dfields) =>
      match List.lookup "translations" dfields with
      | some (.arr (first :: _)) =>
        match first with
        | .obj tfields => (List.lookup "translatedText" tfields).isSome
        | _ => false
      | _ => false
    | _ => false
  | _ => false

/-- Stub translation client of the end-to-end scenario: source to
intermediate maps "Asalaa maalekum" to "Hello", intermediate to source maps
"Hi there" to "Hi there". -/
def stubTranslate : Json → String → String → Except Err Json
  | .str "Asalaa maalekum", "wo", "en" => .ok (.str "Hello")
  | .str "Hi there", "en", "wo" => .ok (.str "Hi there")
  | _, _, _ => .error (.translationError "unexpected stub translation request")

/-- Stub model client of the end-to-end scenario: prompt "Hello" yields
"Hi there". -/
def stubModel : Json → Except Err Json
  | .str "Hello" => .ok (.str "Hi there")
  | _ => .error (.genericError "unexpected stub model prompt")

/-- Fixed service state used in closed statements. -/
def svc0 : ServiceState := { api_key := "test-key", request_id := 0 }

/-- Network stub that always times out; used where the network must not be
reached at all. -/
def netDown : TransParams → NetResult := fun _ => .timeout

/-- Well-formed 200 body whose translated text is the number 123 rather
than a string. -/
def body123 : Json :=
  .obj [("data", .obj [("translations", .arr [.obj [("translatedText", .num 123)]])])]

/-- Well-formed 200 body whose translated text is the empty string. -/
def bodyEmptyText : Json :=
  .obj [("data", .obj [("translations", .arr [.obj [("translatedText", .str "")]])])]

/-! ## Helper lemmas -/

/-- A successful wrapOuter result comes from a successful try body. -/
theorem wrapOuter_ok {r : Except Err Json} {v : Json} (h : wrapOuter r = .ok v) :
    r = .ok v := by
  cases r with
  | ok u => simpa [wrapOuter] using h
  | error e => cases e <;> simp [wrapOuter] at h

/-- Every exception leaving the try block is re-raised as TranslationError. -/
theorem wrapOuter_error_kind (e : Err) :
    ∃ m, wrapOuter (.error e) = .error (.translationError m) := by
  cases e <;> exact ⟨_, rfl⟩

/-- A failed try body never becomes a success. -/
theorem wrapOuter_error_ne_ok (e : Err) (v : Json) : wrapOuter (.error e) ≠ .ok v := by
  cases e <;> simp [wrapOuter]

/-- The 400 branch always raises. -/
theorem handle400_ne_ok {b : Except String Json} {v : Json} (h : handle400 b = .ok v) :
    False := by
  unfold handle400 at h
  repeat' split at h
  all_goals exact Except.noConfusion h

/-- A successful 200 branch returns a truthy value extracted from a parsed
body. -/
theorem handle200_ok {b : Except String Json} {v : Json} (h : handle200 b = .ok v) :
    truthy v = true ∧ ∃ j, b = .ok j ∧ extract_translation j = .ok v := by
  unfold handle200 at h
  split at h
  · exact Except.noConfusion h
  next result =>
    split at h
    · exact Except.noConfusion h
    next hval =>
      split at h
      · exact Except.noConfusion h
      next translation hex =>
        split at h
        next hcond =>
          injection h with h
          subst h
          exact ⟨hcond, result, rfl, hex⟩
        next => exact Except.noConfusion h

/-- A successful status dispatch comes from a successful 200 branch. -/
theorem dispatch_response_ok {r : NetResult} {v : Json} (h : dispatch_response r = .ok v) :
    ∃ status body, r = .resp status body ∧ handle200 body = .ok v := by
  unfold dispatch_response at h
  split at h
  · exact Except.noConfusion h
  · exact Except.noConfusion h
  next status body =>
    split at h
    · exact (handle400_ne_ok h).elim
    · split at h
      · exact Except.noConfusion h
      · split at h
        · exact Except.noConfusion h
        · exact ⟨status, body, rfl, h⟩

/-- Successful subscription by a string key inverts to a dict lookup. -/
theorem pyIndex_ok {j : Json} {k : String} {v : Json} (h : pyIndex j k = .ok v) :
    ∃ fields, j = .obj fields ∧ List.lookup k fields = some v := by
  unfold pyIndex at h
  split at h
  next fields =>
    split at h
    next w hl =>
      injection h with h
      rw [h] at hl
      exact ⟨fields, rfl, hl⟩
    next => exact Except.noConfusion h
  · exact Except.noConfusion h
  · exact Except.noConfusion h
  · exact Except.noConfusion h

/-- Successful subscription by 0 with a non-string result inverts to a
non-empty list whose head is the result. -/
theorem pyIdx0_ok_arr {j v : Json} (h : pyIdx0 j = .ok v) (hv : v.isStr = false) :
    ∃ rest, j = .arr (v :: rest) := by
  unfold pyIdx0 at h
  split at h
  next x xs =>
    injection h with h
    exact ⟨xs, by rw [h]⟩
  · exact Except.noConfusion h
  next s =>
    split at h
    next c cs hd =>
      injection h with h
      rw [← h] at hv
      simp [Json.isStr] at hv
    next => exact Except.noConfusion h
  next fields => exact Except.noConfusion h
  next other => exact Except.noConfusion h

/-- A successful extraction chain certifies the proper body shape. -/
theorem extract_translation_ok_shape {j v : Json}
    (h : extract_translation j = .ok v) : hasProperShape j = true := by
  unfold extract_translation at h
  split at h
  · exact Except.noConfusion h
  next d h1 =>
    split at h
    · exact Except.noConfusion h
    next translations h2 =>
      split at h
      · exact Except.noConfusion h
      next first h3 =>
        obtain ⟨tfields, hfirst, ht⟩ := pyIndex_ok h
        obtain ⟨rest, hrest⟩ := pyIdx0_ok_arr h3 (by rw [hfirst]; rfl)
        obtain ⟨dfields, hd, hdl⟩ := pyIndex_ok h2
        obtain ⟨fields, hf, hfl⟩ := pyIndex_ok h1
        subst hf
        rw [hd] at hfl
        rw [hrest, hfirst] at hdl
        simp [hasProperShape, hfl, hdl, ht]

/-- Dropping leading whitespace from an all-whitespace character list
leaves nothing. -/
theorem dropLeadingWs_all_ws {l : List Char} (h : l.all Char.isWhitespace = true) :
    dropLeadingWs l = [] := by
  induction l with
  | nil => rfl
  | cons c cs ih =>
    rw [List.all_cons, Bool.and_eq_true] at h
    rw [dropLeadingWs, if_pos h.1]
    exact ih h.2

/-- Python strip of an all-whitespace string is the empty string. -/
theorem pyStrip_all_ws {s : String} (h : s.data.all Char.isWhitespace = true) :
    pyStrip s = "" := by
  unfold pyStrip
  rw [dropLeadingWs_all_ws h]
  rfl

/-- The supported-language table holds exactly the codes "wo" and "en". -/
theorem supported_cases {l : String}
    (h : (List.lookup l supported_languages).isSome = true) : l = "wo" ∨ l = "en" := by
  by_cases h1 : l = "wo"
  · exact Or.inl h1
  · by_cases h2 : l = "en"
    · exact Or.inr h2
    · have hb1 : (l == "wo") = false := by simp [h1]
      have hb2 : (l == "en") = false := by simp [h2]
      simp [supported_languages, List.lookup, hb1, hb2] at h

/-- A normal return of translate is a truthy value. -/
theorem translate_result_ok {svc : ServiceState} {ts : String} {net : TransParams → NetResult}
    {text : Json} {source_lang target_lang : String} {v : Json}
    (h : (translate svc ts net text source_lang target_lang).result = .ok v) :
    truthy v = true := by
  unfold translate at h
  split at h
  · dsimp only at h
    split at h
    · exact Except.noConfusion h
    · exact Except.noConfusion h
    · have h2 := wrapOuter_ok h
      split at h2
      · exact Except.noConfusion h2
      · obtain ⟨status, body, -, hb⟩ := dispatch_response_ok h2
        exact (handle200_ok hb).1
  · exact Except.noConfusion h

/-- A truthy query value always enters the pipeline: the handler never
answers 400, and its first recorded service call is the wo-to-en
translation of the query. -/
theorem process_query_truthy_enters (c : Clients) (q : Json) (hq : truthy q = true) :
    (Main.process_query c (.obj [("query", q)])).1.1 ≠ 400 ∧
    (Main.process_query c (.obj [("query", q)])).2.head? =
      some (.translateCall q "wo" "en") := by
  have hget : pyGetD (.obj [("query", q)]) "query" (.str "") = .ok q := rfl
  unfold Main.process_query
  rw [hget]
  dsimp only
  rw [if_pos hq]
  cases c.translate q "wo" "en" with
  | error e => dsimp only; exact ⟨by decide, rfl⟩
  | ok french_query =>
    dsimp only
    cases c.processQuery french_query with
    | error e => dsimp only; exact ⟨by decide, rfl⟩
    | ok french_response =>
      dsimp only
      cases c.translate french_response "en" "wo" with
      | error e => dsimp only; exact ⟨by decide, rfl⟩
      | ok wolof_response => dsimp only; exact ⟨by decide, rfl⟩

/-! ## Claims -/

/-- C1: with the translation client stubbed to map "Asalaa maalekum"
(wo to en) to "Hello" and "Hi there" (en to wo) to "Hi there", and the
model client stubbed to answer "Hi there" to prompt "Hello", the pipeline
on "Asalaa maalekum" returns the four-field record and executes the three
steps in the order translate, query model, translate back. -/
theorem claim_C1_end_to_end :
    Main.process_query { translate := stubTranslate, processQuery := stubModel }
        (.obj [("query", .str "Asalaa maalekum")]) =
      ((200, .obj [("original_query", .str "Asalaa maalekum"), ("french_query", .str "Hello"),
                   ("french_response", .str "Hi there"), ("wolof_response", .str "Hi there")]),
       [.translateCall (.str "Asalaa maalekum") "wo" "en", .modelCall (.str "Hello"),
        .translateCall (.str "Hi there") "en" "wo"]) := rfl

/-- C2 counterexample: translate "hello" with the unsupported source code
"xx" makes zero network calls but fails with a bare KeyError — not the
ValueError-style caller-contract kind, and not even the TranslationError
kind — because a log line subscripts the supported-language table before
validation runs. -/
theorem claim_C2_counterexample :
    (translate svc0 "ts" netDown (.str "hello") "xx" "en").result = .error (.keyError "xx") ∧
    (translate svc0 "ts" netDown (.str "hello") "xx" "en").calls = [] ∧
    isCallerViolation (.keyError "xx") = false ∧
    isExternalFailure (.keyError "xx") = false :=
  ⟨rfl, rfl, rfl, rfl⟩

/-- C2 amended: for every non-empty string text, translate with source code
"xx" and target "en" fails before any network call — zero network calls are
made — but the failure is a bare KeyError raised while formatting the
pre-try log line, not a CallerContractViolation-kind error. -/
theorem claim_C2_amended (s : String) (hs : s ≠ "") (svc : ServiceState) (ts : String)
    (net : TransParams → NetResult) :
    (translate svc ts net (.str s) "xx" "en").result = .error (.keyError "xx") ∧
    (translate svc ts net (.str s) "xx" "en").calls = [] := by
  have h1 : (truthy (.str s) && Json.isStr (.str s)) = true := by
    simp [truthy, Json.isStr, hs]
  unfold translate
  rw [if_pos h1]
  exact ⟨rfl, rfl⟩

/-- C2 witness: the amended statement at the input "hello". -/
theorem claim_C2_witness :
    (translate svc0 "w" netDown (.str "hello") "xx" "en").result = .error (.keyError "xx") ∧
    (translate svc0 "w" netDown (.str "hello") "xx" "en").calls = [] :=
  claim_C2_amended "hello" (by decide) svc0 "w" netDown

/-- C3 counterexample: with the model call failing, process_query "hello"
re-raises a fixed message that does not contain the original query text. -/
theorem claim_C3_counterexample :
    DataModel.process_query (fun _ => .error "boom") (.str "hello") =
      .error (.genericError "Query processing failed: Failed to query the model.") ∧
    strContains "Query processing failed: Failed to query the model." "hello" = false :=
  ⟨rfl, rfl⟩

/-- C3 amended: whenever the underlying model call fails, process_query on
a non-empty string query re-wraps the failure with added context — the
fixed prefix "Query processing failed: " ahead of the underlying message —
but the message does not include the original query text, because the
underlying message is itself the fixed query_model failure string. -/
theorem claim_C3_amended (s : String) (hs : s ≠ "")
    (remote : String → Except String Json) (hremote : ∀ p, ∃ m, remote p = .error m) :
    DataModel.process_query remote (.str s) =
      .error (.genericError "Query processing failed: Failed to query the model.") := by
  obtain ⟨m, hm⟩ := hremote (pyStrip s)
  simp [DataModel.process_query, DataModel.query_model, truthy, Json.isStr, asString, hs, hm]
  rfl

/-- C3 witness: the amended statement at the query "hello" with a failing
model call. -/
theorem claim_C3_witness :
    DataModel.process_query (fun _ => .error "boom") (.str "salam") =
      .error (.genericError "Query processing failed: Failed to query the model.") :=
  claim_C3_amended "salam" (by decide) (fun _ => .error "boom") (fun _ => ⟨"boom", rfl⟩)

/-- C4: translate on the empty string always fails with the ValueError
caller-contract kind — which is not the TranslationError remote-failure
kind — for every source and target code and every remote behaviour, and
the list of network calls made is empty. -/
theorem claim_C4_empty_text (svc : ServiceState) (ts : String)
    (net : TransParams → NetResult) (source_lang target_lang : String) :
    (translate svc ts net (.str "") source_lang target_lang).result =
      .error (.valueError "Text must be a non-empty string") ∧
    (translate svc ts net (.str "") source_lang target_lang).calls = [] ∧
    isCallerViolation (.valueError "Text must be a non-empty string") = true ∧
    isExternalFailure (.valueError "Text must be a non-empty string") = false :=
  ⟨rfl, rfl, rfl, rfl⟩

/-- C5 counterexample: an HTTP-200 response whose translatedText is the
number 123 is returned as-is, so translate can return normally with a
value that is not a string at all, let alone a non-empty one. -/
theorem claim_C5_counterexample :
    (translate svc0 "ts" (fun _ => .resp 200 (.ok body123)) (.str "hi") "wo" "en").result =
      .ok (.num 123) ∧
    Json.isStr (.num 123) = false :=
  ⟨rfl, rfl⟩

/-- C5 amended: whenever translate returns normally the returned value is
truthy — in particular a returned string is non-empty — and an HTTP-200
response carrying an empty translatedText is treated as a failure
(a TranslationError), though a truthy non-string value in translatedText
is returned unchanged rather than rejected. -/
theorem claim_C5_amended :
    (∀ (svc : ServiceState) (ts : String) (net : TransParams → NetResult)
       (text : Json) (source_lang target_lang : String) (v : Json),
       (translate svc ts net text source_lang target_lang).result = .ok v →
       truthy v = true ∧ ∀ s, v = .str s → s ≠ "") ∧
    (∀ (svc : ServiceState) (ts : String) (s : String), s ≠ "" →
       (translate svc ts (fun _ => .resp 200 (.ok bodyEmptyText)) (.str s) "wo" "en").result =
         .error (.translationError "Translation failed: Empty translation received")) := by
  constructor
  · intro svc ts net text source_lang target_lang v h
    have ht := translate_result_ok h
    refine ⟨ht, ?_⟩
    intro s hv
    subst hv
    simpa [truthy] using ht
  · intro svc ts s hs
    have h1 : (truthy (.str s) && Json.isStr (.str s)) = true := by
      simp [truthy, Json.isStr, hs]
    unfold translate
    rw [if_pos h1]
    rfl

/-- C5 witness: both parts of the amended statement at concrete inputs — a
200 response translating to "Bonjour" returns a truthy non-empty string,
and the empty-translation body is rejected. -/
theorem claim_C5_witness :
    (truthy (.str "Bonjour") = true ∧ ∀ s, Json.str "Bonjour" = .str s → s ≠ "") ∧
    (translate svc0 "w" (fun _ => .resp 200 (.ok bodyEmptyText)) (.str "hi") "wo" "en").result =
      .error (.translationError "Translation failed: Empty translation received") :=
  ⟨claim_C5_amended.1 svc0 "w"
      (fun _ => .resp 200 (.ok (.obj [("data",
        .obj [("translations", .arr [.obj [("translatedText", .str "Bonjour")]])])])))
      (.str "hi") "wo" "en" (.str "Bonjour") rfl,
   claim_C5_amended.2 svc0 "w" "hi" (by decide)⟩

/-- C6: on a valid input and supported language pair, every HTTP-200
response whose parsed body lacks the proper data/translations shape
(missing `data`, missing `translations`, an empty or malformed
translations list, or a first element without `translatedText`) makes
translate fail with the TranslationError kind rather than escape as an
unhandled exception. -/
theorem claim_C6_malformed_response (svc : ServiceState) (ts : String) (s : String)
    (hs : s ≠ "") (source_lang target_lang : String)
    (hsl : (List.lookup source_lang supported_languages).isSome = true)
    (htl : (List.lookup target_lang supported_languages).isSome = true)
    (body : Json) (hbody : hasProperShape body = false) :
    ∃ m, (translate svc ts (fun _ => .resp 200 (.ok body)) (.str s) source_lang
          target_lang).result = .error (.translationError m) := by
  have h1 : (truthy (.str s) && Json.isStr (.str s)) = true := by
    simp [truthy, Json.isStr, hs]
  rcases supported_cases hsl with rfl | rfl <;> rcases supported_cases htl with rfl | rfl <;>
    (unfold translate
     rw [if_pos h1]
     change ∃ m, wrapOuter (handle200 (.ok body)) = .error (.translationError m)
     cases hr : handle200 (.ok body) with
     | error e => exact wrapOuter_error_kind e
     | ok v =>
       obtain ⟨-, j, hj, hx⟩ := handle200_ok hr
       injection hj with hj
       subst hj
       have hshape := extract_translation_ok_shape hx
       rw [hshape] at hbody
       exact Bool.noConfusion hbody)

/-- C6 witness: a 200 body whose data holds no translations is rejected
with a TranslationError for the input "hi" on the pair wo to en. -/
theorem claim_C6_witness :
    hasProperShape (.obj [("data", .obj [])]) = false ∧
    ∃ m, (translate svc0 "w" (fun _ => .resp 200 (.ok (.obj [("data", .obj [])])))
          (.str "hi") "wo" "en").result = .error (.translationError m) :=
  ⟨rfl, claim_C6_malformed_response svc0 "w" "hi" (by decide) "wo" "en" rfl rfl
      (.obj [("data", .obj [])]) rfl⟩

/-- C7: on a valid input and supported language pair, a 403 response makes
translate fail with a TranslationError whose final message — after the
generic re-wrap — still names the authentication failure and the API
key. -/
theorem claim_C7_auth_failure (svc : ServiceState) (ts : String) (s : String) (hs : s ≠ "")
    (source_lang target_lang : String)
    (hsl : (List.lookup source_lang supported_languages).isSome = true)
    (htl : (List.lookup target_lang supported_languages).isSome = true)
    (body : Except String Json) :
    (translate svc ts (fun _ => .resp 403 body) (.str s) source_lang target_lang).result =
      .error (.translationError
        "Translation failed: Authentication failed. Please check your API key.") ∧
    strContains "Translation failed: Authentication failed. Please check your API key."
      "Authentication failed" = true ∧
    strContains "Translation failed: Authentication failed. Please check your API key."
      "API key" = true := by
  have h1 : (truthy (.str s) && Json.isStr (.str s)) = true := by
    simp [truthy, Json.isStr, hs]
  rcases supported_cases hsl with rfl | rfl <;> rcases supported_cases htl with rfl | rfl <;>
    (unfold translate
     rw [if_pos h1]
     exact ⟨rfl, rfl, rfl⟩)

/-- C7 witness: the statement at the input "hi" on the pair wo to en with
an empty 403 body. -/
theorem claim_C7_witness :
    (translate svc0 "w" (fun _ => .resp 403 (.ok (.obj []))) (.str "hi") "wo" "en").result =
      .error (.translationError
        "Translation failed: Authentication failed. Please check your API key.") ∧
    strContains "Translation failed: Authentication failed. Please check your API key."
      "Authentication failed" = true ∧
    strContains "Translation failed: Authentication failed. Please check your API key."
      "API key" = true :=
  claim_C7_auth_failure svc0 "w" "hi" (by decide) "wo" "en" rfl rfl (.ok (.obj []))

/-- C8: the request counter is observation-only — with identical arguments
and identical remote behaviour, translate's outcome and its network calls
are the same for any two counter values (and any two log timestamps) — and
each get_request_id call increments the counter by exactly one, so the
counter strictly increases. -/
theorem claim_C8_counter_no_effect :
    (∀ (key : String) (c c' : Nat) (ts ts' : String) (net : TransParams → NetResult)
       (text : Json) (source_lang target_lang : String),
       (translate { api_key := key, request_id := c } ts net text source_lang target_lang).result =
         (translate { api_key := key, request_id := c' } ts' net text source_lang target_lang).result ∧
       (translate { api_key := key, request_id := c } ts net text source_lang target_lang).calls =
         (translate { api_key := key, request_id := c' } ts' net text source_lang target_lang).calls) ∧
    (∀ (c : Nat) (ts : String), (get_request_id c ts).2 = c + 1 ∧ c < (get_request_id c ts).2) := by
  constructor
  · intro key c c' ts ts' net text source_lang target_lang
    unfold translate
    by_cases hg : (truthy text && Json.isStr text) = true
    · rw [if_pos hg, if_pos hg]
      cases List.lookup source_lang supported_languages <;>
        cases List.lookup target_lang supported_languages <;> exact ⟨rfl, rfl⟩
    · rw [if_neg hg, if_neg hg]
      exact ⟨rfl, rfl⟩
  · intro c ts
    exact ⟨rfl, Nat.lt_succ_self c⟩

/-- C9: every non-empty query string consisting only of whitespace is not
rejected as a caller-contract violation: translate accepts it (the string
is truthy), trims it to the empty string and performs exactly one network
call whose q parameter is empty; and the handler's falsiness check
likewise lets it into the pipeline — no 400 response, and the first
recorded service call is the translation of the whitespace query from wo
to en. -/
theorem claim_C9_whitespace (svc : ServiceState) (ts : String)
    (net : TransParams → NetResult) (c : Clients) (s : String) (hne : s ≠ "")
    (hws : s.data.all Char.isWhitespace = true) :
    (translate svc ts net (.str s) "wo" "en").calls =
      [{ q := "", source := "wo", target := "en", key := svc.api_key }] ∧
    (Main.process_query c (.obj [("query", .str s)])).1.1 ≠ 400 ∧
    (Main.process_query c (.obj [("query", .str s)])).2.head? =
      some (.translateCall (.str s) "wo" "en") := by
  have ht : truthy (.str s) = true := by simp [truthy, hne]
  have hmain := process_query_truthy_enters c (.str s) ht
  refine ⟨?_, hmain.1, hmain.2⟩
  have h1 : (truthy (.str s) && Json.isStr (.str s)) = true := by
    simp [truthy, Json.isStr, hne]
  unfold translate
  rw [if_pos h1]
  change [({ q := pyStrip (asString (Json.str s)), source := "wo", target := "en",
             key := svc.api_key } : TransParams)] = _
  rw [show asString (Json.str s) = s from rfl, pyStrip_all_ws hws]

/-- C9 witness: the statement at the single-space query with the stub
clients. -/
theorem claim_C9_witness :
    (translate svc0 "w" netDown (.str " ") "wo" "en").calls =
      [{ q := "", source := "wo", target := "en", key := svc0.api_key }] ∧
    (Main.process_query { translate := stubTranslate, processQuery := stubModel }
        (.obj [("query", .str " ")])).1.1 ≠ 400 ∧
    (Main.process_query { translate := stubTranslate, processQuery := stubModel }
        (.obj [("query", .str " ")])).2.head? =
      some (.translateCall (.str " ") "wo" "en") :=
  claim_C9_whitespace svc0 "w" netDown
    { translate := stubTranslate, processQuery := stubModel } " " (by decide) (by decide)

/-- C10: a truthy non-string query value is not answered with the 400
client-error response: it passes the handler's falsiness check, the real
translate rejects it with the ValueError, and the generic exception
handler turns that into a 500 response carrying the error's message. -/
theorem claim_C10_nonstring_query (svc : ServiceState) (ts : String)
    (net : TransParams → NetResult) (remote : String → Except String Json)
    (v : Json) (hv : truthy v = true) (hvs : Json.isStr v = false) :
    (Main.process_query (realClients svc ts net remote) (.obj [("query", v)])).1 =
      (500, .obj [("error", .str "Text must be a non-empty string")]) := by
  have htr : (translate svc ts net v "wo" "en").result =
      .error (.valueError "Text must be a non-empty string") := by
    unfold translate
    rw [hv, hvs]
    rfl
  have hget : pyGetD (.obj [("query", v)]) "query" (.str "") = .ok v := rfl
  unfold Main.process_query
  rw [hget]
  dsimp only
  rw [if_pos hv]
  rw [show (realClients svc ts net remote).translate v "wo" "en" =
        (translate svc ts net v "wo" "en").result from rfl, htr]
  rfl

/-- C10 witness: the statement at the numeric query value 5. -/
theorem claim_C10_witness :
    (Main.process_query (realClients svc0 "w" netDown (fun _ => .error "x"))
        (.obj [("query", .num 5)])).1 =
      (500, .obj [("error", .str "Text must be a non-empty string")]) :=
  claim_C10_nonstring_query svc0 "w" netDown (fun _ => .error "x") (.num 5) rfl rfl

end WolofBridge
